import Mathlib

/-!
Shallow embedding of the QA environment provisioner (`src/app.py`).

The program is a FastAPI service with four endpoints — `provision`,
`destroy`, `list_envs` (`/list`) and `garbage_collect` (`/gc`) — operating
on a module-level dict `STATE` (persisted to a JSON file) plus the
filesystem (workdirs under `BASE`) and the container runtime.

Modelling choices:
- `STATE` (a Python dict, insertion-ordered with unique keys) is a
  `List (String × Record)` with `dictGet` / `dictInsert` / `dictDel`
  matching dict lookup, assign (which overwrites in place) and `del`.
- The disk and container runtime are tracked explicitly in `SysState` as
  the list of workdirs that exist and the list of running
  containers/stacks (named by `env_id`; the project name of a compose stack is
  the workdir directory name, which is `env_id`).
- External effects (GitHub ref lookup, `git`/`docker` commands, the ngrok
  tunnel, `time.time()`) are oracles passed in as explicit arguments;
  each fallible command is a Boolean outcome, the branch lookup and the
  tunnel are `Option` results. A failed `docker build`/`docker run`/
  `docker compose up` is modelled as not having started any container.
- `HTTPException` outcomes are a `PErr` value: `invalidInput` is the
  400 for a bad service name, `badRequest` is the 400 for missing
  GitHub/ngrok configuration, `notFound` is 404, `commandFailed` is the
  500 raised by `run`, `tunnelUnavailable` is the 500 raised by
  `start_ngrok` after its polling budget.
-/

namespace QAProvisioner

/-- Configuration drawn from environment variables at module load:
`BASE_WORKDIR`, `ALLOWED_SERVICES`, `DEFAULT_TTL_MINUTES`, and whether the
GitHub (`GITHUB_TOKEN`/`GITHUB_OWNER`/`GITHUB_REPO`) and ngrok
(`NGROK_AUTHTOKEN`) variables are set. -/
structure Config where
  base : String
  allowed : List String
  default_ttl : Int
  ghConfigured : Bool
  ngrokToken : Bool
deriving Repr, DecidableEq

/-- The body of `POST /provision` (`ProvisionReq` in the source). -/
structure ProvisionReq where
  branch : String
  service : String := "web"
  ttl_minutes : Option Int := none
deriving Repr, DecidableEq

/-- One value of the `STATE` dict: the record committed at the end of a
successful `provision` (source lines 120-124). -/
structure Record where
  branch : String
  sha : String
  url : String
  port : Nat
  workdir : String
  created_at : Int
  expires_at : Int
deriving Repr, DecidableEq

/-- The `STATE` dict: insertion-ordered association list keyed by
`env_id`. -/
abbrev Store := List (String × Record)

/-- Observable system state: the `STATE` dict, the set of workdirs
existing on disk under `BASE`, and the set of running containers/stacks
(identified by `env_id`). -/
structure SysState where
  store : Store
  workdirs : List String
  containers : List String
deriving Repr, DecidableEq

/-- Error outcomes (`HTTPException` payloads) of the endpoints. -/
inductive PErr where
  | invalidInput
  | badRequest
  | notFound
  | commandFailed
  | tunnelUnavailable
deriving Repr, DecidableEq

/-- The JSON body returned by a successful `provision`. -/
structure ProvResp where
  env_id : String
  url : String
  expires_at : Int
  sha : String
deriving Repr, DecidableEq

/-- Oracle for the external effects a single `provision` call performs,
in program order: the GitHub ref lookup result (`none` models a non-200
status), the random uuid suffix, the outcomes of `git clone`,
`git checkout`, `ensure_network`, the compose-file probe, the
build/run commands, the ngrok tunnel (`none` models the polling budget
running out), and the two `int(time.time())` readings at lines 118 and
123. -/
structure POracle where
  branchSha : Option String
  uuid6 : String
  cloneOk : Bool
  checkoutOk : Bool
  networkOk : Bool
  composeExists : Bool
  composeUpOk : Bool
  buildOk : Bool
  runOk : Bool
  ngrokUrl : Option String
  now : Int
  now2 : Int
deriving Repr

/-- Oracle for the best-effort cleanup steps of one `destroy` call:
whether the container/stack teardown command succeeded and whether
`shutil.rmtree(..., ignore_errors=True)` actually removed the workdir.
Both failure modes are swallowed by the source. -/
structure DOracle where
  teardownOk : Bool
  rmtreeOk : Bool
deriving Repr

/-- Dict lookup `STATE.get(k)` (first matching key). -/
def dictGet (k : String) : Store → Option Record
  | [] => none
  | kv :: rest => if kv.1 = k then some kv.2 else dictGet k rest

/-- Dict assignment `STATE[k] = v`: overwrites in place if the key is
present, otherwise appends. -/
def dictInsert (k : String) (v : Record) : Store → Store
  | [] => [(k, v)]
  | kv :: rest => if kv.1 = k then (k, v) :: rest else kv :: dictInsert k v rest

/-- Dict deletion `del STATE[k]`. -/
def dictDel (k : String) : Store → Store
  | [] => []
  | kv :: rest => if kv.1 = k then dictDel k rest else kv :: dictDel k rest

/-- Remove a string from a list (used for workdir removal and container
teardown effects on the tracked disk state). -/
def removeStr (k : String) : List String → List String
  | [] => []
  | c :: rest => if c = k then removeStr k rest else c :: removeStr k rest

/-- Add a string if absent (`mkdir(parents=True, exist_ok=True)` and
container-start effects on the tracked state). -/
def addIfAbsent (w : String) (ws : List String) : List String :=
  if w ∈ ws then ws else w :: ws

/-- Source line 91: the derived environment id
`branch.replace('/', '-') + '-' + sha[:7] + '-' + uuid4().hex[:6]`.
Replacing the one-character pattern `'/'` is the character-wise map, and
the slice `sha[:7]` is the first seven characters. -/
def envIdOf (req : ProvisionReq) (sha uuid6 : String) : String :=
  String.mk (req.branch.data.map fun c => if c = '/' then '-' else c) ++ "-" ++
    String.mk (sha.data.take 7) ++ "-" ++ uuid6

/-- Source line 117: `ttl = req.ttl_minutes or DEFAULT_TTL`. Python `or`
falls through to the default exactly when `ttl_minutes` is falsy, i.e.
`None` or `0`; any other value — negative included — is kept. -/
def ttlOf (req : ProvisionReq) (cfg : Config) : Int :=
  match req.ttl_minutes with
  | none => cfg.default_ttl
  | some t => if t = 0 then cfg.default_ttl else t

/-- The endpoint `POST /provision` (source lines 85-126). Steps in
program order: allow-list check; `gh_branch_exists` (which first checks
the GitHub configuration, then the ref lookup); workdir `mkdir`;
`git clone`; `git checkout`; `ensure_network`; compose-or-Dockerfile
build/run with the fixed `port = 8080`; `start_ngrok` (which first checks
`NGROK_AUTHTOKEN`); TTL computation; commit of the record into `STATE`.
Every error return surfaces the exception with the state as mutated so
far: there is no rollback code in the source. -/
def provision (cfg : Config) (o : POracle) (req : ProvisionReq) (s : SysState) :
    SysState × Except PErr ProvResp :=
  if req.service ∈ cfg.allowed then
    if cfg.ghConfigured then
      match o.branchSha with
      | none => (s, .error .notFound)
      | some sha =>
        let env_id := envIdOf req sha o.uuid6
        let workdir := cfg.base ++ "/" ++ env_id
        let s1 : SysState := { s with workdirs := addIfAbsent workdir s.workdirs }
        if o.cloneOk then
          if o.checkoutOk then
            if o.networkOk then
              if (if o.composeExists then o.composeUpOk else (o.buildOk && o.runOk)) then
                let s2 : SysState := { s1 with containers := addIfAbsent env_id s1.containers }
                let port : Nat := 8080
                if cfg.ngrokToken then
                  match o.ngrokUrl with
                  | none => (s2, .error .tunnelUnavailable)
                  | some url =>
                    let expires_at := o.now + ttlOf req cfg * 60
                    let r : Record :=
                      { branch := req.branch, sha := sha, url := url,
                        port := port, workdir := workdir,
                        created_at := o.now2, expires_at := expires_at }
                    ({ s2 with store := dictInsert env_id r s2.store },
                     .ok { env_id := env_id, url := url, expires_at := expires_at, sha := sha })
                else (s2, .error .badRequest)
              else (s1, .error .commandFailed)
            else (s1, .error .commandFailed)
          else (s1, .error .commandFailed)
        else (s1, .error .commandFailed)
    else (s, .error .badRequest)
  else (s, .error .invalidInput)

/-- The endpoint `POST /destroy` (source lines 128-144). Absent id is a
404; otherwise container/stack teardown and `shutil.rmtree` are
attempted with every failure swallowed (`try/except: pass` and
`ignore_errors=True`), the record is unconditionally deleted from
`STATE`, and `{"ok": True}` is returned. -/
def destroy (o : DOracle) (env_id : String) (s : SysState) :
    SysState × Except PErr Bool :=
  match dictGet env_id s.store with
  | none => (s, .error .notFound)
  | some env =>
    let s1 : SysState :=
      if o.teardownOk then { s with containers := removeStr env_id s.containers } else s
    let s2 : SysState :=
      if o.rmtreeOk then { s1 with workdirs := removeStr env.workdir s1.workdirs } else s1
    ({ s2 with store := dictDel env_id s2.store }, .ok true)

/-- One element of the `/list` response: the fields of the record plus the
derived `ttl_min = max(0, (expires_at - now) // 60)` (source line 151;
Python `//` on ints is floor division, hence `Int.fdiv`). -/
structure ListItem where
  env_id : String
  branch : String
  sha : String
  url : String
  port : Nat
  workdir : String
  created_at : Int
  expires_at : Int
  ttl_min : Int
deriving Repr, DecidableEq

/-- Builds one `/list` item from a `STATE` entry. -/
def mkItem (now : Int) (k : String) (v : Record) : ListItem :=
  { env_id := k, branch := v.branch, sha := v.sha, url := v.url,
    port := v.port, workdir := v.workdir, created_at := v.created_at,
    expires_at := v.expires_at,
    ttl_min := max 0 ((v.expires_at - now).fdiv 60) }

/-- The endpoint `GET /list` (source lines 146-152): a pure read that
maps every `STATE` entry to an item; it never mutates state and never
filters by expiry. -/
def list_envs (now : Int) (s : SysState) : List ListItem :=
  s.store.map fun kv => mkItem now kv.1 kv.2

/-- The loop body of `/gc` (source lines 158-164): iterate over a
snapshot of the keys; re-read each key (skip if gone — unreachable in a
single-threaded run since dict keys are unique); if
`expires_at <= now`, call `destroy` and record the id on success; a
`destroy` failure is swallowed and the sweep continues. -/
def gc_loop (dor : String → DOracle) (now : Int) :
    List String → SysState → SysState × List String
  | [], s => (s, [])
  | k :: rest, s =>
    match dictGet k s.store with
    | none => gc_loop dor now rest s
    | some v =>
      if v.expires_at ≤ now then
        match (destroy (dor k) k s).2 with
        | .ok _ =>
          let out := gc_loop dor now rest (destroy (dor k) k s).1
          (out.1, k :: out.2)
        | .error _ => gc_loop dor now rest (destroy (dor k) k s).1
      else gc_loop dor now rest s

/-- The endpoint `POST /gc` (source lines 154-165): reads `now` once,
then sweeps the snapshot `list(STATE.items())` of the keys. -/
def garbage_collect (dor : String → DOracle) (now : Int) (s : SysState) :
    SysState × List String :=
  gc_loop dor now (s.store.map Prod.fst) s

/-! Helper lemmas about the dict operations and small arithmetic facts. -/

/-- Deleting a key makes it absent and leaves the lookup of every other
key unchanged. -/
theorem dictGet_dictDel (k k' : String) (d : Store) :
    dictGet k' (dictDel k d) = if k' = k then none else dictGet k' d := by
  induction d with
  | nil => simp [dictGet, dictDel]
  | cons kv rest ih =>
    by_cases h1 : kv.1 = k <;> by_cases h2 : kv.1 = k' <;>
      simp_all [dictGet, dictDel]

/-- Dict assignment makes the assigned key look up the new value. -/
theorem dictGet_dictInsert_self (k : String) (v : Record) (d : Store) :
    dictGet k (dictInsert k v d) = some v := by
  induction d with
  | nil => simp [dictGet, dictInsert]
  | cons kv rest ih =>
    by_cases h1 : kv.1 = k <;> simp_all [dictGet, dictInsert]

/-- Dict assignment leaves the lookup of every other key unchanged. -/
theorem dictGet_dictInsert_ne (k k' : String) (v : Record) (d : Store)
    (h : k' ≠ k) : dictGet k' (dictInsert k v d) = dictGet k' d := by
  induction d with
  | nil =>
    show (if k = k' then some v else none) = none
    rw [if_neg fun he => h he.symm]
  | cons kv rest ih =>
    by_cases h1 : kv.1 = k
    · simp only [dictInsert, if_pos h1, dictGet]
      rw [if_neg fun he => h he.symm, if_neg fun he => h (h1.symm.trans he).symm]
    · simp only [dictInsert, if_neg h1, dictGet]
      rw [ih]

/-- A successful lookup names an entry of the dict. -/
theorem mem_of_dictGet {k : String} {v : Record} {d : Store}
    (h : dictGet k d = some v) : (k, v) ∈ d := by
  induction d with
  | nil => simp [dictGet] at h
  | cons kv rest ih =>
    by_cases h1 : kv.1 = k
    · simp only [dictGet, if_pos h1] at h
      obtain ⟨a, b⟩ := kv
      injection h with h2
      subst h2
      cases h1
      exact List.mem_cons_self _ _
    · simp only [dictGet, if_neg h1] at h
      exact List.mem_cons_of_mem _ (ih h)

/-- A successful lookup means the key is among the keys of the dict. -/
theorem key_mem_of_dictGet {k : String} {v : Record} {d : Store}
    (h : dictGet k d = some v) : k ∈ d.map Prod.fst := by
  have hm := mem_of_dictGet h
  exact List.mem_map.mpr ⟨(k, v), hm, rfl⟩

/-- Every entry after an assignment is the new binding or an old entry. -/
theorem mem_dictInsert {kv : String × Record} {k : String} {v : Record}
    {d : Store} (h : kv ∈ dictInsert k v d) : kv = (k, v) ∨ kv ∈ d := by
  induction d with
  | nil =>
    simp only [dictInsert, List.mem_singleton] at h
    exact Or.inl h
  | cons kv' rest ih =>
    by_cases h1 : kv'.1 = k
    · simp only [dictInsert, if_pos h1, List.mem_cons] at h
      rcases h with h | h
      · exact Or.inl h
      · exact Or.inr (List.mem_cons_of_mem _ h)
    · simp only [dictInsert, if_neg h1, List.mem_cons] at h
      rcases h with h | h
      · exact Or.inr (List.mem_cons.mpr (Or.inl h))
      · rcases ih h with h2 | h2
        · exact Or.inl h2
        · exact Or.inr (List.mem_cons_of_mem _ h2)

/-- Deletion only removes entries. -/
theorem mem_dictDel {kv : String × Record} {k : String} {d : Store}
    (h : kv ∈ dictDel k d) : kv ∈ d := by
  induction d with
  | nil => simp [dictDel] at h
  | cons kv' rest ih =>
    by_cases h1 : kv'.1 = k
    · simp only [dictDel, if_pos h1] at h
      exact List.mem_cons_of_mem _ (ih h)
    · simp only [dictDel, if_neg h1, List.mem_cons] at h
      rcases h with h | h
      · exact List.mem_cons.mpr (Or.inl h)
      · exact List.mem_cons_of_mem _ (ih h)

/-- The added string is present after `addIfAbsent`. -/
theorem mem_addIfAbsent (w : String) (ws : List String) :
    w ∈ addIfAbsent w ws := by
  unfold addIfAbsent
  split
  · assumption
  · exact List.mem_cons_self w ws

/-- Appending distinct suffixes to one prefix yields distinct strings. -/
theorem append_str_injective {p k1 k2 : String} (h : p ++ k1 = p ++ k2) :
    k1 = k2 := by
  have hd : p.data ++ k1.data = p.data ++ k2.data := by
    have h2 := congrArg String.data h
    simpa [String.data_append] using h2
  have h3 : k1.data = k2.data := List.append_cancel_left hd
  cases k1
  cases k2
  exact congrArg String.mk h3

/-- Floor division of a remainder below one minute gives zero minutes. -/
theorem fdiv_sixty_eq_zero {x : Int} (h1 : 0 ≤ x) (h2 : x < 60) :
    x.fdiv 60 = 0 := by
  obtain ⟨n, rfl⟩ := Int.eq_ofNat_of_zero_le h1
  have hn : n < 60 := by exact_mod_cast h2
  show (Int.ofNat n).fdiv 60 = 0
  cases n with
  | zero => rfl
  | succ m =>
    have hr : (Int.ofNat (m+1)).fdiv 60 = Int.ofNat ((m+1) / 60) := rfl
    rw [hr, Nat.div_eq_of_lt hn]
    rfl

/-- A nonpositive remainder clamps to zero minutes. -/
theorem max_fdiv_nonpos {x : Int} (h : x ≤ 0) : max 0 (x.fdiv 60) = 0 := by
  rcases x with n | n
  · have hn : n = 0 := by
      rw [Int.ofNat_eq_coe] at h
      omega
    subst hn
    rfl
  · have hr : (Int.negSucc n).fdiv 60 = Int.negSucc (n / 60) := rfl
    rw [hr]
    have hneg : Int.negSucc (n / 60) ≤ 0 := le_of_lt (Int.negSucc_lt_zero _)
    omega

/-! Characterization lemmas for `destroy` and `provision`. -/

/-- An absent id makes `destroy` a pure 404: no state is touched. -/
theorem destroy_absent (o : DOracle) (k : String) (s : SysState)
    (h : dictGet k s.store = none) : destroy o k s = (s, .error .notFound) := by
  unfold destroy
  rw [h]

/-- A present id always makes `destroy` return ok. -/
theorem destroy_present_snd (o : DOracle) (k : String) (s : SysState)
    {v : Record} (h : dictGet k s.store = some v) :
    (destroy o k s).2 = .ok true := by
  unfold destroy
  rw [h]

/-- A present id always gets its record deleted, whatever the cleanup
oracle says. -/
theorem destroy_present_store (o : DOracle) (k : String) (s : SysState)
    {v : Record} (h : dictGet k s.store = some v) :
    (destroy o k s).1.store = dictDel k s.store := by
  unfold destroy
  rw [h]
  by_cases ht : o.teardownOk <;> by_cases hr : o.rmtreeOk <;>
    simp [ht, hr]

/-- A service outside the allow-list short-circuits `provision` with a
400 before any effect: the state is returned untouched. -/
theorem provision_not_allowed (cfg : Config) (o : POracle)
    (req : ProvisionReq) (s : SysState) (h : req.service ∉ cfg.allowed) :
    provision cfg o req s = (s, .error .invalidInput) := by
  unfold provision
  rw [if_neg h]

/-- A failed branch lookup short-circuits `provision` with a 404 before
the workdir is created: the state is returned untouched. -/
theorem provision_branch_missing (cfg : Config) (o : POracle)
    (req : ProvisionReq) (s : SysState) (hs : req.service ∈ cfg.allowed)
    (hg : cfg.ghConfigured = true) (hb : o.branchSha = none) :
    provision cfg o req s = (s, .error .notFound) := by
  unfold provision
  rw [if_pos hs, if_pos (by simp [hg]), hb]

/-- The record committed by a successful `provision` (source lines
120-124). -/
def provRecord (cfg : Config) (o : POracle) (req : ProvisionReq)
    (sha url : String) : Record :=
  { branch := req.branch, sha := sha, url := url, port := 8080,
    workdir := cfg.base ++ "/" ++ envIdOf req sha o.uuid6,
    created_at := o.now2, expires_at := o.now + ttlOf req cfg * 60 }

/-- Full characterization of a successful `provision`: every external
step succeeded, so the record is committed under the derived id, the
workdir and container are tracked, and the response carries the id, the
tunnel url, the expiry and the commit sha. -/
theorem provision_success_eq (cfg : Config) (o : POracle)
    (req : ProvisionReq) (s : SysState) (sha url : String)
    (hs : req.service ∈ cfg.allowed) (hg : cfg.ghConfigured = true)
    (hb : o.branchSha = some sha) (hc : o.cloneOk = true)
    (hk : o.checkoutOk = true) (hn : o.networkOk = true)
    (hbr : (if o.composeExists then o.composeUpOk else (o.buildOk && o.runOk)) = true)
    (ht : cfg.ngrokToken = true) (hu : o.ngrokUrl = some url) :
    provision cfg o req s =
      ({ store := dictInsert (envIdOf req sha o.uuid6)
            (provRecord cfg o req sha url) s.store,
         workdirs := addIfAbsent (cfg.base ++ "/" ++ envIdOf req sha o.uuid6)
            s.workdirs,
         containers := addIfAbsent (envIdOf req sha o.uuid6) s.containers },
       .ok { env_id := envIdOf req sha o.uuid6, url := url,
             expires_at := o.now + ttlOf req cfg * 60, sha := sha }) := by
  unfold provision
  rw [if_pos hs, if_pos (by simp [hg]), hb]
  simp only [hc, hk, hn, hbr, ht, hu, if_true]
  rfl

/-- Any erroring `provision` leaves the Store exactly as it was: the
commit at source lines 120-125 is only reached on the all-success path. -/
theorem provision_error_store (cfg : Config) (o : POracle)
    (req : ProvisionReq) (s : SysState) (e : PErr)
    (h : (provision cfg o req s).2 = .error e) :
    (provision cfg o req s).1.store = s.store := by
  unfold provision at h ⊢
  split at h
  all_goals try split at h
  all_goals try split at h
  all_goals try split at h
  all_goals try split at h
  all_goals try split at h
  all_goals try split at h
  all_goals try split at h
  all_goals try split at h
  all_goals try split at h
  all_goals try simp_all
  all_goals
    rename_i hcond
    rw [if_neg fun hc => absurd hc.2 (by simp [hcond hc.1])]

/-- Once the branch has resolved, the workdir has been created
(`mkdir` at source line 93) and no later line ever removes it: it is in
the final state whether the call succeeds or fails. -/
theorem provision_workdir_persists (cfg : Config) (o : POracle)
    (req : ProvisionReq) (s : SysState) (sha : String)
    (hs : req.service ∈ cfg.allowed) (hg : cfg.ghConfigured = true)
    (hb : o.branchSha = some sha) :
    (cfg.base ++ "/" ++ envIdOf req sha o.uuid6)
      ∈ (provision cfg o req s).1.workdirs := by
  unfold provision
  rw [if_pos hs, if_pos (by simp [hg])]
  split
  · rename_i heq
    rw [hb] at heq
    exact Option.noConfusion heq
  · rename_i url heq
    rw [hb] at heq
    injection heq with heq2
    subst heq2
    repeat' split
    all_goals exact mem_addIfAbsent _ _

/-! Lemmas about the garbage-collection sweep. -/

/-- The sweep never introduces a key: an id absent from the Store stays
absent through the whole loop. -/
theorem gc_loop_absent (dor : String → DOracle) (now : Int)
    (keys : List String) (s : SysState) (k : String)
    (h : dictGet k s.store = none) :
    dictGet k (gc_loop dor now keys s).1.store = none := by
  induction keys generalizing s with
  | nil => exact h
  | cons k' rest ih =>
    unfold gc_loop
    cases hget : dictGet k' s.store with
    | none => exact ih s h
    | some v =>
      dsimp only
      by_cases hexp : v.expires_at ≤ now
      · rw [if_pos hexp, destroy_present_snd (dor k') k' s hget]
        dsimp only
        apply ih
        rw [destroy_present_store (dor k') k' s hget, dictGet_dictDel]
        split
        · rfl
        · exact h
      · rw [if_neg hexp]
        exact ih s h

/-- Every id the sweep reports was present with `expires_at <= now` at
the start of the sweep. -/
theorem gc_loop_killed_expired (dor : String → DOracle) (now : Int)
    (keys : List String) (s : SysState) (k : String)
    (h : k ∈ (gc_loop dor now keys s).2) :
    ∃ v, dictGet k s.store = some v ∧ v.expires_at ≤ now := by
  induction keys generalizing s with
  | nil => simp [gc_loop] at h
  | cons k' rest ih =>
    unfold gc_loop at h
    cases hget : dictGet k' s.store with
    | none =>
      rw [hget] at h
      exact ih s h
    | some v =>
      rw [hget] at h
      dsimp only at h
      by_cases hexp : v.expires_at ≤ now
      · rw [if_pos hexp, destroy_present_snd (dor k') k' s hget] at h
        dsimp only at h
        simp only [List.mem_cons] at h
        rcases h with h | h
        · subst h
          exact ⟨v, hget, hexp⟩
        · obtain ⟨w, hw, hwe⟩ := ih _ h
          rw [destroy_present_store (dor k') k' s hget, dictGet_dictDel] at hw
          by_cases hkk : k = k'
          · rw [if_pos hkk] at hw
            exact Option.noConfusion hw
          · rw [if_neg hkk] at hw
            exact ⟨w, hw, hwe⟩
      · rw [if_neg hexp] at h
        exact ih s h

/-- A record that has not yet expired is untouched by the sweep: it is
never reported and its Store entry survives with the same value. -/
theorem gc_loop_unexpired_survives (dor : String → DOracle) (now : Int)
    (keys : List String) (s : SysState) (k : String) (v : Record)
    (h : dictGet k s.store = some v) (hfut : now < v.expires_at) :
    dictGet k (gc_loop dor now keys s).1.store = some v ∧
      k ∉ (gc_loop dor now keys s).2 := by
  have hnk : k ∉ (gc_loop dor now keys s).2 := by
    intro hmem
    obtain ⟨w, hw, hwe⟩ := gc_loop_killed_expired dor now keys s k hmem
    rw [h] at hw
    injection hw with hw
    subst hw
    omega
  refine ⟨?_, hnk⟩
  clear hnk
  induction keys generalizing s with
  | nil => exact h
  | cons k' rest ih =>
    unfold gc_loop
    cases hget : dictGet k' s.store with
    | none => exact ih s h
    | some w =>
      dsimp only
      by_cases hexp : w.expires_at ≤ now
      · rw [if_pos hexp, destroy_present_snd (dor k') k' s hget]
        dsimp only
        apply ih
        rw [destroy_present_store (dor k') k' s hget, dictGet_dictDel]
        by_cases hkk : k = k'
        · subst hkk
          rw [h] at hget
          injection hget with hget
          subst hget
          omega
        · rw [if_neg hkk]
          exact h
      · rw [if_neg hexp]
        exact ih s h

/-- Every id present and expired at the start of the sweep is reported
by the sweep and is gone from the Store afterwards, provided it is among
the swept keys. -/
theorem gc_loop_expired_killed (dor : String → DOracle) (now : Int)
    (keys : List String) (s : SysState) (k : String) (v : Record)
    (hk : k ∈ keys) (h : dictGet k s.store = some v)
    (hexp : v.expires_at ≤ now) :
    k ∈ (gc_loop dor now keys s).2 ∧
      dictGet k (gc_loop dor now keys s).1.store = none := by
  induction keys generalizing s with
  | nil => simp at hk
  | cons k' rest ih =>
    unfold gc_loop
    by_cases hkk : k' = k
    · subst hkk
      rw [h]
      dsimp only
      rw [if_pos hexp, destroy_present_snd _ _ _ h]
      dsimp only
      constructor
      · exact List.mem_cons_self _ _
      · apply gc_loop_absent
        rw [destroy_present_store _ _ _ h, dictGet_dictDel, if_pos rfl]
    · have hkr : k ∈ rest := by
        rcases List.mem_cons.mp hk with h1 | h1
        · exact absurd h1.symm hkk
        · exact h1
      cases hget : dictGet k' s.store with
      | none => exact ih s hkr h
      | some w =>
        dsimp only
        by_cases hexp' : w.expires_at ≤ now
        · rw [if_pos hexp', destroy_present_snd (dor k') k' s hget]
          dsimp only
          simp only [List.mem_cons]
          have hget2 : dictGet k (destroy (dor k') k' s).1.store = some v := by
            rw [destroy_present_store (dor k') k' s hget, dictGet_dictDel,
              if_neg fun he => hkk he.symm]
            exact h
          obtain ⟨h1, h2⟩ := ih _ hkr hget2
          exact ⟨Or.inr h1, h2⟩
        · rw [if_neg hexp']
          exact ih s hkr h

/-- The final store of the sweep only ever contains entries of the
initial store. -/
theorem gc_loop_store_subset (dor : String → DOracle) (now : Int)
    (keys : List String) (s : SysState) (kv : String × Record)
    (h : kv ∈ (gc_loop dor now keys s).1.store) : kv ∈ s.store := by
  induction keys generalizing s with
  | nil => exact h
  | cons k' rest ih =>
    unfold gc_loop at h
    cases hget : dictGet k' s.store with
    | none =>
      rw [hget] at h
      exact ih s h
    | some v =>
      rw [hget] at h
      dsimp only at h
      by_cases hexp : v.expires_at ≤ now
      · rw [if_pos hexp, destroy_present_snd (dor k') k' s hget] at h
        dsimp only at h
        have := ih _ h
        rw [destroy_present_store (dor k') k' s hget] at this
        exact mem_dictDel this
      · rw [if_neg hexp] at h
        exact ih s h

/-- Once the branch has resolved and clone, checkout, network setup and
the build/run step have succeeded, the container (or compose stack) has
been started, and no later line of `provision` ever stops it: it is in
the final state whether the tunnel step succeeds or fails. -/
theorem provision_container_persists (cfg : Config) (o : POracle)
    (req : ProvisionReq) (s : SysState) (sha : String)
    (hs : req.service ∈ cfg.allowed) (hg : cfg.ghConfigured = true)
    (hb : o.branchSha = some sha) (hc : o.cloneOk = true)
    (hk : o.checkoutOk = true) (hn : o.networkOk = true)
    (hbr : (if o.composeExists then o.composeUpOk else (o.buildOk && o.runOk)) = true) :
    envIdOf req sha o.uuid6 ∈ (provision cfg o req s).1.containers := by
  unfold provision
  rw [if_pos hs, if_pos (by simp [hg])]
  split
  · rename_i heq
    rw [hb] at heq
    exact Option.noConfusion heq
  · rename_i url heq
    rw [hb] at heq
    injection heq with heq2
    subst heq2
    simp only [hc, hk, hn, hbr, if_true]
    split
    · split
      · exact mem_addIfAbsent _ _
      · exact mem_addIfAbsent _ _
    · exact mem_addIfAbsent _ _

/-- Workdir invariant of the Store: every record carries the workdir
`BASE/<id>` derived from its own key (source lines 92 and 122). -/
def wdInv (cfg : Config) (s : SysState) : Prop :=
  ∀ kv ∈ s.store, kv.2.workdir = cfg.base ++ "/" ++ kv.1

/-- Port invariant of the Store: every committed record carries the
fixed port 8080 (source lines 105 and 109). -/
def portInv (s : SysState) : Prop :=
  ∀ kv ∈ s.store, kv.2.port = 8080

/-- Under the two Store invariants, entries under distinct keys never
share a workdir, yet always share the port. -/
theorem store_inv_pairwise (cfg : Config) (s : SysState)
    (h1 : wdInv cfg s) (h2 : portInv s) :
    ∀ k1 v1 k2 v2, (k1, v1) ∈ s.store → (k2, v2) ∈ s.store → k1 ≠ k2 →
      v1.workdir ≠ v2.workdir ∧ v1.port = v2.port := by
  intro k1 v1 k2 v2 hm1 hm2 hne
  have hw1 := h1 _ hm1
  have hw2 := h1 _ hm2
  simp only at hw1 hw2
  refine ⟨?_, (h2 _ hm1).trans (h2 _ hm2).symm⟩
  rw [hw1, hw2]
  intro he
  exact hne (append_str_injective he)

/-! Concrete fixtures used by the witnesses and counterexamples. -/

/-- Concrete configuration mirroring the default environment values of
the source: base `/data/qa-envs`, allow-list `web,api`, default TTL 120
minutes, GitHub and ngrok configured. -/
def cfgW : Config :=
  { base := "/data/qa-envs", allowed := ["web", "api"], default_ttl := 120,
    ghConfigured := true, ngrokToken := true }

/-- Concrete oracle on which every external step succeeds. -/
def oW : POracle :=
  { branchSha := some "abcdef0123", uuid6 := "aaaaaa", cloneOk := true,
    checkoutOk := true, networkOk := true, composeExists := false,
    composeUpOk := true, buildOk := true, runOk := true,
    ngrokUrl := some "https://x.ngrok.io", now := 1000, now2 := 1001 }

/-- Concrete request for branch `feat/x`, service `web`, TTL 10. -/
def reqW : ProvisionReq :=
  { branch := "feat/x", service := "web", ttl_minutes := some 10 }

/-- Empty initial state. -/
def emptyState : SysState := { store := [], workdirs := [], containers := [] }

/-- Concrete record that expired at time 900. -/
def recExp : Record :=
  { branch := "b1", sha := "s1", url := "u1", port := 8080,
    workdir := "/data/qa-envs/e1", created_at := 0, expires_at := 900 }

/-- Concrete record that expires at time 1001, one second after the
sweep instant 1000. -/
def recFut : Record :=
  { branch := "b2", sha := "s2", url := "u2", port := 8080,
    workdir := "/data/qa-envs/e2", created_at := 0, expires_at := 1001 }

/-- Concrete record that expires at time 1030, thirty seconds after the
listing instant 1000. -/
def recSub : Record :=
  { branch := "b3", sha := "s3", url := "u3", port := 8080,
    workdir := "/data/qa-envs/e3", created_at := 0, expires_at := 1030 }

/-- Concrete state holding one expired and one not-yet-expired record. -/
def gcState : SysState :=
  { store := [("e1", recExp), ("e2", recFut)],
    workdirs := ["/data/qa-envs/e1", "/data/qa-envs/e2"],
    containers := ["e1", "e2"] }

/-- Concrete state holding one record that expires within the minute. -/
def subState : SysState :=
  { store := [("e3", recSub)], workdirs := ["/data/qa-envs/e3"],
    containers := ["e3"] }

/-- Cleanup oracle on which every cleanup step succeeds. -/
def dorW : String → DOracle := fun _ => { teardownOk := true, rmtreeOk := true }

/-! Claim theorems. -/

/-- Claim C3: for every Destroy(id) call, an absent id fails with
NotFound and leaves the state untouched; a present id is removed from
the Store and the call returns ok for every cleanup oracle â that is,
even when container/stack teardown or workdir removal fails â and a
second Destroy of the same id then observes NotFound. -/
theorem c3_destroy_idempotent (o o2 : DOracle) (env_id : String)
    (s : SysState) :
    (dictGet env_id s.store = none → destroy o env_id s = (s, .error .notFound)) ∧
    (∀ v, dictGet env_id s.store = some v →
      (destroy o env_id s).2 = .ok true ∧
      dictGet env_id (destroy o env_id s).1.store = none ∧
      (destroy o2 env_id (destroy o env_id s).1).2 = .error .notFound) := by
  constructor
  · exact destroy_absent o env_id s
  · intro v hv
    have h2 : dictGet env_id (destroy o env_id s).1.store = none := by
      rw [destroy_present_store o env_id s hv, dictGet_dictDel, if_pos rfl]
    refine ⟨destroy_present_snd o env_id s hv, h2, ?_⟩
    rw [destroy_absent o2 _ _ h2]

/-- Witness for C3: destroying the present id `e1` with a cleanup oracle
on which both cleanup steps fail still returns ok and removes the
record, the second destroy of `e1` observes NotFound, and destroying the
absent id `missing` fails with NotFound. -/
theorem c3_destroy_idempotent_witness :
    (destroy { teardownOk := false, rmtreeOk := false } "e1" gcState).2 = .ok true ∧
    dictGet "e1" (destroy { teardownOk := false, rmtreeOk := false } "e1" gcState).1.store = none ∧
    (destroy (dorW "e1") "e1" (destroy { teardownOk := false, rmtreeOk := false } "e1" gcState).1).2
      = .error .notFound ∧
    destroy (dorW "x") "missing" gcState = (gcState, .error .notFound) := by
  obtain ⟨h1, h2, h3⟩ :=
    (c3_destroy_idempotent { teardownOk := false, rmtreeOk := false }
      (dorW "e1") "e1" gcState).2 recExp (by decide)
  exact ⟨h1, h2, h3,
    (c3_destroy_idempotent (dorW "x") (dorW "x") "missing" gcState).1 (by decide)⟩

/-- Claim C4: every id a GC sweep run at time `now` reports was present
with `expires_at <= now` at the start of the sweep; a record whose
expiry lies even one second in the future is neither reported nor
removed; and every present expired record is destroyed and reported â
the returned list is exactly the ids whose destroy succeeded, and one
per-id outcome never aborts the rest of the sweep. -/
theorem c4_gc_only_expired (dor : String → DOracle) (now : Int)
    (s : SysState) :
    (∀ k, k ∈ (garbage_collect dor now s).2 →
        ∃ v, dictGet k s.store = some v ∧ v.expires_at ≤ now) ∧
    (∀ k v, dictGet k s.store = some v → now + 1 ≤ v.expires_at →
        k ∉ (garbage_collect dor now s).2 ∧
        dictGet k (garbage_collect dor now s).1.store = some v) ∧
    (∀ k v, dictGet k s.store = some v → v.expires_at ≤ now →
        k ∈ (garbage_collect dor now s).2 ∧
        dictGet k (garbage_collect dor now s).1.store = none) := by
  refine ⟨?_, ?_, ?_⟩
  · intro k hk
    exact gc_loop_killed_expired dor now _ s k hk
  · intro k v hv hfut
    have h := gc_loop_unexpired_survives dor now (s.store.map Prod.fst) s k v hv
      (by omega)
    exact ⟨h.2, h.1⟩
  · intro k v hv hexp
    exact gc_loop_expired_killed dor now _ s k v (key_mem_of_dictGet hv) hv hexp

/-- Witness for C4: sweeping at time 1000 a Store holding `e1` (expired
at 900) and `e2` (expiring at 1001) destroys and reports exactly `e1`
and leaves `e2` untouched. -/
theorem c4_gc_only_expired_witness :
    "e1" ∈ (garbage_collect dorW 1000 gcState).2 ∧
    dictGet "e1" (garbage_collect dorW 1000 gcState).1.store = none ∧
    "e2" ∉ (garbage_collect dorW 1000 gcState).2 ∧
    dictGet "e2" (garbage_collect dorW 1000 gcState).1.store = some recFut := by
  obtain ⟨h1, h2, h3⟩ := c4_gc_only_expired dorW 1000 gcState
  obtain ⟨hk1, hk2⟩ := h3 "e1" recExp (by decide) (by decide)
  obtain ⟨hf1, hf2⟩ := h2 "e2" recFut (by decide) (by decide)
  exact ⟨hk1, hk2, hf1, hf2⟩

/-- Claim C5: when the branch does not resolve in the VCS collaborator
(the GitHub ref lookup is not a 200) and the request passes the earlier
allow-list and configuration checks, `provision` fails with NotFound and
returns the state untouched: no Store record, no workdir, no container. -/
theorem c5_unknown_branch (cfg : Config) (o : POracle) (req : ProvisionReq)
    (s : SysState) (hs : req.service ∈ cfg.allowed)
    (hg : cfg.ghConfigured = true) (hb : o.branchSha = none) :
    provision cfg o req s = (s, .error .notFound) :=
  provision_branch_missing cfg o req s hs hg hb

/-- Witness for C5: a concrete call whose branch lookup fails returns
NotFound with the empty state unchanged. -/
theorem c5_unknown_branch_witness :
    provision cfgW { oW with branchSha := none } reqW emptyState
      = (emptyState, .error .notFound) :=
  c5_unknown_branch cfgW { oW with branchSha := none } reqW emptyState
    (by decide) rfl rfl

/-- Claim C8: a record stays in the Store after its expiry passes: as
long as it is present it appears in the `/list` result computed at any
instant, and once expired its derived minutes value is 0. Nothing in
`list_envs` filters or mutates by expiry; only `destroy` and the GC
sweep remove records. -/
theorem c8_expired_persists (now : Int) (s : SysState) (k : String)
    (v : Record) (h : dictGet k s.store = some v) :
    mkItem now k v ∈ list_envs now s ∧
    (v.expires_at ≤ now → (mkItem now k v).ttl_min = 0) := by
  constructor
  · exact List.mem_map.mpr ⟨(k, v), mem_of_dictGet h, rfl⟩
  · intro hexp
    show max 0 ((v.expires_at - now).fdiv 60) = 0
    exact max_fdiv_nonpos (by omega)

/-- Witness for C8: the record `e1`, expired at 900, is still listed at
time 1000 with minutes value 0. -/
theorem c8_expired_persists_witness :
    mkItem 1000 "e1" recExp ∈ list_envs 1000 gcState ∧
    (mkItem 1000 "e1" recExp).ttl_min = 0 := by
  obtain ⟨h1, h2⟩ := c8_expired_persists 1000 gcState "e1" recExp (by decide)
  exact ⟨h1, h2 (by decide)⟩

/-- Claim C9: the `/list` minutes value is the floor division of the
remaining seconds by 60, so a record with strictly between 0 and 60
seconds left reports 0 minutes while still being listed and while not
being eligible for any GC sweep run at the same instant. -/
theorem c9_sub_minute_ttl (now : Int) (s : SysState) (k : String)
    (v : Record) (h : dictGet k s.store = some v)
    (h1 : 0 < v.expires_at - now) (h2 : v.expires_at - now < 60) :
    (mkItem now k v).ttl_min = 0 ∧
    mkItem now k v ∈ list_envs now s ∧
    (∀ dor, k ∉ (garbage_collect dor now s).2) := by
  refine ⟨?_, List.mem_map.mpr ⟨(k, v), mem_of_dictGet h, rfl⟩, ?_⟩
  · show max 0 ((v.expires_at - now).fdiv 60) = 0
    rw [fdiv_sixty_eq_zero (le_of_lt h1) h2]
    rfl
  · intro dor
    exact (gc_loop_unexpired_survives dor now (s.store.map Prod.fst) s k v h
      (by omega)).2

/-- Witness for C9: the record `e3`, expiring at 1030, reports 0 minutes
at time 1000 yet is not collected by a sweep at time 1000. -/
theorem c9_sub_minute_ttl_witness :
    (mkItem 1000 "e3" recSub).ttl_min = 0 ∧
    "e3" ∉ (garbage_collect dorW 1000 subState).2 := by
  obtain ⟨h1, _, h3⟩ := c9_sub_minute_ttl 1000 subState "e3" recSub
    (by decide) (by decide) (by decide)
  exact ⟨h1, h3 dorW⟩

/-- Claim C10: a service outside the allow-list makes `provision` fail
with InvalidInput while the state is completely untouched, and the
outcome does not depend on the external-effect oracle at all â no branch
lookup, no workdir, no process, no Store change. -/
theorem c10_service_allowlist (cfg : Config) (req : ProvisionReq)
    (s : SysState) (h : req.service ∉ cfg.allowed) (o o2 : POracle) :
    provision cfg o req s = (s, .error .invalidInput) ∧
    provision cfg o req s = provision cfg o2 req s := by
  rw [provision_not_allowed cfg o req s h, provision_not_allowed cfg o2 req s h]
  exact ⟨rfl, rfl⟩

/-- Witness for C10: a concrete call with service `db` fails with
InvalidInput and leaves the empty state unchanged. -/
theorem c10_service_allowlist_witness :
    provision cfgW oW { branch := "feat/x", service := "db", ttl_minutes := none }
      emptyState = (emptyState, .error .invalidInput) :=
  (c10_service_allowlist cfgW
    { branch := "feat/x", service := "db", ttl_minutes := none }
    emptyState (by decide) oW oW).1

/-- Claim C1, counterexample: a `provision` on which the clone step
fails (after the workdir was created at source line 93) surfaces the
error but leaves the workdir on disk â the claimed removal of the
workdir does not happen, because the source has no rollback code. -/
theorem c1_counterexample :
    (provision cfgW { oW with cloneOk := false } reqW emptyState).2
      = .error .commandFailed ∧
    "/data/qa-envs/feat-x-abcdef0-aaaaaa"
      ∈ (provision cfgW { oW with cloneOk := false } reqW emptyState).1.workdirs := by
  exact ⟨rfl, by decide⟩

/-- Claim C1 as amended: when a step after workdir creation fails,
`provision` surfaces the error and commits no record to the Store, but
performs no rollback â the created workdir stays on disk, and if the
container/stack had already been started it stays running. -/
theorem c1_amended_no_rollback (cfg : Config) (o : POracle)
    (req : ProvisionReq) (s : SysState) (sha : String) (e : PErr)
    (hs : req.service ∈ cfg.allowed) (hg : cfg.ghConfigured = true)
    (hb : o.branchSha = some sha)
    (herr : (provision cfg o req s).2 = .error e) :
    (provision cfg o req s).1.store = s.store ∧
    (cfg.base ++ "/" ++ envIdOf req sha o.uuid6)
      ∈ (provision cfg o req s).1.workdirs ∧
    (o.cloneOk = true → o.checkoutOk = true → o.networkOk = true →
      (if o.composeExists then o.composeUpOk else (o.buildOk && o.runOk)) = true →
      envIdOf req sha o.uuid6 ∈ (provision cfg o req s).1.containers) :=
  ⟨provision_error_store cfg o req s e herr,
   provision_workdir_persists cfg o req s sha hs hg hb,
   fun hc hk hn hbr =>
     provision_container_persists cfg o req s sha hs hg hb hc hk hn hbr⟩

/-- Witness for the amended C1: a call failing at the tunnel step leaves
the Store empty but leaves both the workdir and the started container
behind. -/
theorem c1_amended_no_rollback_witness :
    (provision cfgW { oW with ngrokUrl := none } reqW emptyState).1.store
      = emptyState.store ∧
    (cfgW.base ++ "/" ++ envIdOf reqW "abcdef0123" "aaaaaa")
      ∈ (provision cfgW { oW with ngrokUrl := none } reqW emptyState).1.workdirs ∧
    envIdOf reqW "abcdef0123" "aaaaaa"
      ∈ (provision cfgW { oW with ngrokUrl := none } reqW emptyState).1.containers := by
  obtain ⟨h1, h2, h3⟩ := c1_amended_no_rollback cfgW
    { oW with ngrokUrl := none } reqW emptyState "abcdef0123"
    .tunnelUnavailable (by decide) rfl rfl rfl
  exact ⟨h1, h2, h3 rfl rfl rfl rfl⟩

/-- Claim C2, counterexample: two successful provisions from the empty
state commit two records under distinct ids whose ports are both the
fixed 8080 â the claimed pairwise-distinct ports do not hold. -/
theorem c2_counterexample :
    ("feat-x-abcdef0-aaaaaa" : String) ≠ "feat-x-abcdef0-bbbbbb" ∧
    (dictGet "feat-x-abcdef0-aaaaaa"
        (provision cfgW { oW with uuid6 := "bbbbbb" } reqW
          (provision cfgW oW reqW emptyState).1).1.store).map Record.port
      = some 8080 ∧
    (dictGet "feat-x-abcdef0-bbbbbb"
        (provision cfgW { oW with uuid6 := "bbbbbb" } reqW
          (provision cfgW oW reqW emptyState).1).1.store).map Record.port
      = some 8080 := by
  refine ⟨by decide, by decide, by decide⟩

/-- Claim C2 as amended: among records simultaneously present in the
Store the workdirs are pairwise distinct (each record owns
`BASE/<its id>`), but the ports never differ â every committed record
carries the fixed port 8080. Both Store invariants are preserved by a
successful commit. -/
theorem c2_amended_workdir_unique_port_fixed (cfg : Config) (o : POracle)
    (req : ProvisionReq) (s : SysState) (sha url : String)
    (hs : req.service ∈ cfg.allowed) (hg : cfg.ghConfigured = true)
    (hb : o.branchSha = some sha) (hc : o.cloneOk = true)
    (hk : o.checkoutOk = true) (hn : o.networkOk = true)
    (hbr : (if o.composeExists then o.composeUpOk else (o.buildOk && o.runOk)) = true)
    (ht : cfg.ngrokToken = true) (hu : o.ngrokUrl = some url)
    (h1 : wdInv cfg s) (h2 : portInv s) :
    wdInv cfg (provision cfg o req s).1 ∧
    portInv (provision cfg o req s).1 ∧
    (∀ k1 v1 k2 v2, (k1, v1) ∈ (provision cfg o req s).1.store →
        (k2, v2) ∈ (provision cfg o req s).1.store → k1 ≠ k2 →
        v1.workdir ≠ v2.workdir ∧ v1.port = v2.port) := by
  rw [provision_success_eq cfg o req s sha url hs hg hb hc hk hn hbr ht hu]
  have hwd : wdInv cfg
      { store := dictInsert (envIdOf req sha o.uuid6)
          (provRecord cfg o req sha url) s.store,
        workdirs := addIfAbsent (cfg.base ++ "/" ++ envIdOf req sha o.uuid6)
          s.workdirs,
        containers := addIfAbsent (envIdOf req sha o.uuid6) s.containers } := by
    intro kv hkv
    rcases mem_dictInsert hkv with hkv2 | hkv2
    · subst hkv2
      rfl
    · exact h1 _ hkv2
  have hpt : portInv
      { store := dictInsert (envIdOf req sha o.uuid6)
          (provRecord cfg o req sha url) s.store,
        workdirs := addIfAbsent (cfg.base ++ "/" ++ envIdOf req sha o.uuid6)
          s.workdirs,
        containers := addIfAbsent (envIdOf req sha o.uuid6) s.containers } := by
    intro kv hkv
    rcases mem_dictInsert hkv with hkv2 | hkv2
    · subst hkv2
      rfl
    · exact h2 _ hkv2
  exact ⟨hwd, hpt, store_inv_pairwise cfg _ hwd hpt⟩

/-- Witness for the amended C2: one successful provision from the empty
state yields a Store satisfying both invariants, whose entries pairwise
never share a workdir and always share the port. -/
theorem c2_amended_workdir_unique_port_fixed_witness :
    wdInv cfgW (provision cfgW oW reqW emptyState).1 ∧
    portInv (provision cfgW oW reqW emptyState).1 := by
  obtain ⟨hw, hp, _⟩ := c2_amended_workdir_unique_port_fixed cfgW oW reqW
    emptyState "abcdef0123" "https://x.ngrok.io" (by decide) rfl rfl rfl rfl
    rfl rfl rfl rfl
    (by intro kv hkv; simp [emptyState] at hkv)
    (by intro kv hkv; simp [emptyState] at hkv)
  exact ⟨hw, hp⟩

/-- Claim C6, counterexample: a caller-supplied negative TTL of -5
minutes is used as-is by the committed record (Python `or` treats -5 as
truthy), so the expiry is `now - 300` instead of the claimed
`now + default*60`. -/
theorem c6_counterexample :
    (provision cfgW oW
        { branch := "feat/x", service := "web", ttl_minutes := some (-5) }
        emptyState).2
      = .ok { env_id := "feat-x-abcdef0-aaaaaa", url := "https://x.ngrok.io",
              expires_at := 700, sha := "abcdef0123" } ∧
    (700 : Int) ≠ 1000 + 120 * 60 := by
  exact ⟨rfl, by decide⟩

/-- Claim C6 as amended: the TTL used for the committed expiry equals
the caller value whenever that value is nonzero â positive or negative â
and equals the configured default exactly when the caller value is
absent or zero; the committed record carries
`expires_at = now + ttl*60`. -/
theorem c6_amended_ttl_python_or (cfg : Config) (o : POracle)
    (req : ProvisionReq) (s : SysState) (sha url : String)
    (hs : req.service ∈ cfg.allowed) (hg : cfg.ghConfigured = true)
    (hb : o.branchSha = some sha) (hc : o.cloneOk = true)
    (hk : o.checkoutOk = true) (hn : o.networkOk = true)
    (hbr : (if o.composeExists then o.composeUpOk else (o.buildOk && o.runOk)) = true)
    (ht : cfg.ngrokToken = true) (hu : o.ngrokUrl = some url) :
    dictGet (envIdOf req sha o.uuid6) (provision cfg o req s).1.store
      = some (provRecord cfg o req sha url) ∧
    (provRecord cfg o req sha url).expires_at = o.now + ttlOf req cfg * 60 ∧
    (∀ t, req.ttl_minutes = some t → t ≠ 0 → ttlOf req cfg = t) ∧
    ((req.ttl_minutes = none ∨ req.ttl_minutes = some 0) →
      ttlOf req cfg = cfg.default_ttl) := by
  refine ⟨?_, rfl, ?_, ?_⟩
  · rw [provision_success_eq cfg o req s sha url hs hg hb hc hk hn hbr ht hu]
    exact dictGet_dictInsert_self _ _ _
  · intro t hti htne
    unfold ttlOf
    rw [hti]
    dsimp only
    rw [if_neg htne]
  · rintro (hti | hti) <;> unfold ttlOf <;> rw [hti]
    dsimp only
    rw [if_pos rfl]

/-- Witness for the amended C6: a call with TTL -5 commits a record
whose expiry is 1000 - 300 = 700, and `ttlOf` keeps the negative -5. -/
theorem c6_amended_ttl_python_or_witness :
    dictGet (envIdOf { branch := "feat/x", service := "web", ttl_minutes := some (-5) }
        "abcdef0123" "aaaaaa")
      (provision cfgW oW
        { branch := "feat/x", service := "web", ttl_minutes := some (-5) }
        emptyState).1.store
      = some (provRecord cfgW oW
          { branch := "feat/x", service := "web", ttl_minutes := some (-5) }
          "abcdef0123" "https://x.ngrok.io") ∧
    ttlOf { branch := "feat/x", service := "web", ttl_minutes := some (-5) } cfgW
      = -5 := by
  obtain ⟨h1, _, h3, _⟩ := c6_amended_ttl_python_or cfgW oW
    { branch := "feat/x", service := "web", ttl_minutes := some (-5) }
    emptyState "abcdef0123" "https://x.ngrok.io" (by decide) rfl rfl rfl rfl
    rfl rfl rfl rfl
  exact ⟨h1, h3 (-5) rfl (by decide)⟩

/-- Claim C7, counterexample: a commit under an id already present in
the Store does not fail with Conflict â the call succeeds and the old
record is silently replaced by the new one. -/
theorem c7_counterexample :
    (provision cfgW oW reqW
        { store := [("feat-x-abcdef0-aaaaaa",
            { branch := "old", sha := "oldsha", url := "oldurl", port := 9999,
              workdir := "/old", created_at := 0, expires_at := 0 })],
          workdirs := [], containers := [] }).2
      = .ok { env_id := "feat-x-abcdef0-aaaaaa", url := "https://x.ngrok.io",
              expires_at := 1600, sha := "abcdef0123" } ∧
    dictGet "feat-x-abcdef0-aaaaaa"
      (provision cfgW oW reqW
        { store := [("feat-x-abcdef0-aaaaaa",
            { branch := "old", sha := "oldsha", url := "oldurl", port := 9999,
              workdir := "/old", created_at := 0, expires_at := 0 })],
          workdirs := [], containers := [] }).1.store
      = some { branch := "feat/x", sha := "abcdef0123",
               url := "https://x.ngrok.io", port := 8080,
               workdir := "/data/qa-envs/feat-x-abcdef0-aaaaaa",
               created_at := 1001, expires_at := 1600 } ∧
    ({ branch := "feat/x", sha := "abcdef0123", url := "https://x.ngrok.io",
       port := 8080, workdir := "/data/qa-envs/feat-x-abcdef0-aaaaaa",
       created_at := 1001, expires_at := 1600 } : Record)
      ≠ { branch := "old", sha := "oldsha", url := "oldurl", port := 9999,
          workdir := "/old", created_at := 0, expires_at := 0 } := by
  refine ⟨rfl, by decide, by decide⟩

/-- Claim C7 as amended: the commit `STATE[env_id] = record` silently
overwrites any record already stored under the same id â the call still
succeeds and the Store afterwards maps the id to the new record; no
Conflict error exists anywhere in the source. -/
theorem c7_amended_commit_overwrites (cfg : Config) (o : POracle)
    (req : ProvisionReq) (s : SysState) (sha url : String) (old : Record)
    (hs : req.service ∈ cfg.allowed) (hg : cfg.ghConfigured = true)
    (hb : o.branchSha = some sha) (hc : o.cloneOk = true)
    (hk : o.checkoutOk = true) (hn : o.networkOk = true)
    (hbr : (if o.composeExists then o.composeUpOk else (o.buildOk && o.runOk)) = true)
    (ht : cfg.ngrokToken = true) (hu : o.ngrokUrl = some url)
    (_hold : dictGet (envIdOf req sha o.uuid6) s.store = some old) :
    (provision cfg o req s).2
      = .ok { env_id := envIdOf req sha o.uuid6, url := url,
              expires_at := o.now + ttlOf req cfg * 60, sha := sha } ∧
    dictGet (envIdOf req sha o.uuid6) (provision cfg o req s).1.store
      = some (provRecord cfg o req sha url) := by
  rw [provision_success_eq cfg o req s sha url hs hg hb hc hk hn hbr ht hu]
  exact ⟨rfl, dictGet_dictInsert_self _ _ _⟩

/-- Witness for the amended C7: provisioning over a Store that already
holds the id `feat-x-abcdef0-aaaaaa` succeeds and leaves the new record
under that id. -/
theorem c7_amended_commit_overwrites_witness :
    (provision cfgW oW reqW
        { store := [("feat-x-abcdef0-aaaaaa",
            { branch := "old", sha := "oldsha", url := "oldurl", port := 9999,
              workdir := "/old", created_at := 0, expires_at := 0 })],
          workdirs := [], containers := [] }).2
      = .ok { env_id := envIdOf reqW "abcdef0123" "aaaaaa",
              url := "https://x.ngrok.io",
              expires_at := oW.now + ttlOf reqW cfgW * 60,
              sha := "abcdef0123" } ∧
    dictGet (envIdOf reqW "abcdef0123" "aaaaaa")
      (provision cfgW oW reqW
        { store := [("feat-x-abcdef0-aaaaaa",
            { branch := "old", sha := "oldsha", url := "oldurl", port := 9999,
              workdir := "/old", created_at := 0, expires_at := 0 })],
          workdirs := [], containers := [] }).1.store
      = some (provRecord cfgW oW reqW "abcdef0123" "https://x.ngrok.io") := by
  exact c7_amended_commit_overwrites cfgW oW reqW
    { store := [("feat-x-abcdef0-aaaaaa",
        { branch := "old", sha := "oldsha", url := "oldurl", port := 9999,
          workdir := "/old", created_at := 0, expires_at := 0 })],
      workdirs := [], containers := [] }
    "abcdef0123" "https://x.ngrok.io"
    { branch := "old", sha := "oldsha", url := "oldurl", port := 9999,
      workdir := "/old", created_at := 0, expires_at := 0 }
    (by decide) rfl rfl rfl rfl rfl rfl rfl rfl (by decide)

end QAProvisioner
